import Mathlib

/-!
Shallow embedding of the captcha-svg-generator repository
(src/CaptchaGenerator.js, src/lib/random.js, src/lib/presets.js,
src/lib/colors.js) and proofs about the claims of its specification.

JavaScript numbers are modelled as rationals; `Math.random()` outcomes are
passed in as rational parameters in [0, 1); the one place where JavaScript
division by zero matters is modelled with an explicit extended-number type.
-/

namespace Captcha

/-- randomInt from src/lib/random.js: `Math.floor(Math.random() * (max - min) + min)`,
with the `Math.random()` draw passed in as the rational `r`. -/
def randomInt (r lo hi : ℚ) : ℤ := ⌊r * (hi - lo) + lo⌋

/-- JavaScript array indexing `xs[j]`: `undefined` (here `none`) when the index is
negative or at least the length. -/
def jsIndex {α : Type} (xs : List α) (j : ℤ) : Option α :=
  if 0 ≤ j then xs.get? j.toNat else none

/-- buildCharPreset from src/lib/presets.js (the `upper` table). -/
def upperChars : String := "ABCDEFGHIJKLMNOPQRSTUVWXYZ"

/-- buildCharPreset from src/lib/presets.js (the `lower` table). -/
def lowerChars : String := "abcdefghijklmnopqrstuvwxyz"

/-- buildCharPreset from src/lib/presets.js (the `numbers` table). -/
def numberChars : String := "0123456789"

/-- buildCharPreset from src/lib/presets.js: a switch on the preset name,
falling through to the full alphanumeric union on `"all"` and on any
unrecognized name. -/
def buildCharPreset (type : String) : String :=
  if type = "upper" then upperChars
  else if type = "lower" then lowerChars
  else if type = "numbers" then numberChars
  else if type = "letters" then upperChars ++ lowerChars
  else if type = "upper-alphanum" then upperChars ++ numberChars
  else if type = "lower-alphanum" then lowerChars ++ numberChars
  else upperChars ++ lowerChars ++ numberChars

/-- The constructor's character pool (src/CaptchaGenerator.js):
`buildCharPreset(presetType).split("").filter((ch) => !ignoreChars.includes(ch))`.
`includes` applied to a one-character string is character membership. -/
def activeChars (presetType ignoreChars : String) : List Char :=
  (buildCharPreset presetType).data.filter (fun ch => !(ignoreChars.data.contains ch))

/-- A JavaScript character pick `this.chars[...]` turned into the string that
`Array.prototype.join("")` contributes: `undefined` joins as the empty string. -/
def optCharStr : Option Char → String
  | some c => String.singleton c
  | none => ""

/-- The answer-text draw in generate() (src/CaptchaGenerator.js):
`Array.from({ length: size }, () => this.chars[randomInt(0, this.chars.length)]).join("")`,
with the i-th callback's `Math.random()` draw given by `rt i`. -/
def generateText (chars : List Char) (size : ℕ) (rt : ℕ → ℚ) : String :=
  String.join ((List.range size).map (fun i =>
    optCharStr (jsIndex chars (randomInt (rt i) 0 (chars.length : ℚ)))))

/-- A JavaScript value as far as verifyCaptcha's result is concerned:
`null`, a string, or a boolean. -/
inductive JSVal where
  | nul : JSVal
  | str : String → JSVal
  | bool : Bool → JSVal
deriving DecidableEq, Repr

/-- The merged option record `this.options = { ...this.defaults, ...options }`
(src/CaptchaGenerator.js constructor), restricted to the fields the claims
touch.  `fontFiles` (file paths, I/O) is outside the embedding. -/
structure Options where
  size : ℕ
  ignoreChars : String
  noise : ℕ
  background : String
  width : ℚ
  height : ℚ
  fontSize : ℚ
  presetType : String
  fontColour : String
  noiseColour : String
  noiseWidth : ℚ
  messy : Bool
deriving DecidableEq, Repr

/-- The caller's option object: absent fields are `none`. -/
structure CallerOptions where
  size : Option ℕ := none
  ignoreChars : Option String := none
  noise : Option ℕ := none
  background : Option String := none
  width : Option ℚ := none
  height : Option ℚ := none
  fontSize : Option ℚ := none
  presetType : Option String := none
  fontColour : Option String := none
  noiseColour : Option String := none
  noiseWidth : Option ℚ := none
  messy : Option Bool := none
deriving DecidableEq, Repr

/-- The `noiseWidth` entry of `this.defaults` (src/CaptchaGenerator.js
constructor): the literal 2, fixed for the instance. -/
def defaultsNoiseWidth : ℚ := 2

/-- The object-spread merge `{ ...this.defaults, ...options }` of the
constructor: a caller-supplied field overrides the default.  The two
random default colours (`randomColor()` evaluated while building
`this.defaults`) are passed in as `randFontColour` / `randNoiseColour`. -/
def mkOptions (caller : CallerOptions) (randFontColour randNoiseColour : String) : Options where
  size := caller.size.getD 6
  ignoreChars := caller.ignoreChars.getD ""
  noise := caller.noise.getD 2
  background := caller.background.getD "#ffffff"
  width := caller.width.getD 150
  height := caller.height.getD 50
  fontSize := caller.fontSize.getD 36
  presetType := caller.presetType.getD "all"
  fontColour := caller.fontColour.getD randFontColour
  noiseColour := caller.noiseColour.getD randNoiseColour
  noiseWidth := caller.noiseWidth.getD defaultsNoiseWidth
  messy := caller.messy.getD true

/-- The character table of the static generateKey (src/CaptchaGenerator.js). -/
def keyAlphabet : List Char :=
  "ABCDEFGHIJKLMNOPQRSTUVWXYZabcdefghijklmnopqrstuvwxyz0123456789".data

/-- generateKey(length) from src/CaptchaGenerator.js: `length` random picks
from its 62-character table, concatenated with `Date.now().toString(36)`
(passed in as `now36`).  The i-th `Math.random()` draw is `rk i`. -/
def generateKey (len : ℕ) (rk : ℕ → ℚ) (now36 : String) : String :=
  (String.join ((List.range len).map (fun i =>
    optCharStr (jsIndex keyAlphabet (randomInt (rk i) 0 (keyAlphabet.length : ℚ)))))) ++ now36

/-- The instance's mutable verification state: `this.captchaKey` and
`this.captchaText`, both `null` until the first generate() call. -/
structure GenState where
  captchaKey : Option String
  captchaText : Option String
deriving DecidableEq, Repr

/-- The constructor's initial state: `this.captchaKey = null; this.captchaText = null`. -/
def initState : GenState := ⟨none, none⟩

/-- The state-and-result effect of generate() (src/CaptchaGenerator.js):
draws the answer text, issues a fresh key via `generateKey(16)`, and
overwrites `this.captchaKey` / `this.captchaText`.  Returns
`(key, text, new state)`; the SVG assembly does not touch this state. -/
def generateStep (_st : GenState) (chars : List Char) (size : ℕ)
    (rt rk : ℕ → ℚ) (now36 : String) : String × String × GenState :=
  let text := generateText chars size rt
  let key := generateKey 16 rk now36
  (key, text, ⟨some key, some text⟩)

/-- JavaScript truthiness of a `string | null` value: `null` and the empty
string are falsy. -/
def jsFalsyOptStr : Option String → Bool
  | none => true
  | some s => s = ""

/-- storeCaptcha(ttl, setFn) from src/CaptchaGenerator.js.  `setFnIsCallable`
models `typeof setFn === "function"`.  A successful call invokes setFn
exactly once; the `.ok` value is that invocation's argument triple
("captcha:" prefixed key, stored answer text, ttl). -/
def storeCaptcha (st : GenState) (setFnIsCallable : Bool) (ttl : ℤ) :
    Except String (String × String × ℤ) :=
  if setFnIsCallable = false then .error "setFn must be a function"
  else if jsFalsyOptStr st.captchaKey || jsFalsyOptStr st.captchaText then
    .error "No captcha generated yet."
  else .ok ("captcha:" ++ (st.captchaKey.getD ""), st.captchaText.getD "", ttl)

/-- The result expression of verifyCaptcha (src/CaptchaGenerator.js):
`storedValue && storedValue === userInput`.  A falsy left operand
(`null` or `""`) is returned as-is; otherwise the strict string
comparison produces a boolean. -/
def verifyCaptchaResult (storedValue : Option String) (userInput : String) : JSVal :=
  match storedValue with
  | none => .nul
  | some s => if s = "" then .str "" else .bool (s = userInput)

/-- verifyCaptcha(userInput, captchaKey, getFn) from src/CaptchaGenerator.js:
checks that getFn is callable, fetches the `"captcha:"`-namespaced key
(`fetch` models the resolved value of `getFn`), and returns the
`storedValue && storedValue === userInput` expression. -/
def verifyCaptcha (getFnIsCallable : Bool) (fetch : String → Option String)
    (userInput captchaKey : String) : Except String JSVal :=
  if getFnIsCallable = false then .error "getFn must be a function"
  else .ok (verifyCaptchaResult (fetch ("captcha:" ++ captchaKey)) userInput)

/-- A JavaScript number as far as the layout's scale computation is
concerned: finite, an infinity (from division by zero), or NaN
(from 0 / 0). -/
inductive JSNum where
  | fin : ℚ → JSNum
  | posInf : JSNum
  | negInf : JSNum
  | nan : JSNum
deriving DecidableEq, Repr

/-- JavaScript division of two finite numbers: finite when the divisor is
nonzero, otherwise a signed infinity, with `0 / 0 = NaN`. -/
def jsDivQ (a b : ℚ) : JSNum :=
  if b = 0 then (if 0 < a then .posInf else if a < 0 then .negInf else .nan)
  else .fin (a / b)

/-- `Math.min(1, x)`: NaN propagates, an infinite argument compares as
expected, otherwise the rational minimum. -/
def jsMin1 : JSNum → JSNum
  | .fin q => .fin (min 1 q)
  | .posInf => .fin 1
  | .negInf => .negInf
  | .nan => .nan

/-- Truth of "does not exceed 1" for the computed scale: an infinite scale
would exceed 1; NaN, negative infinity and finite values at most 1 do not. -/
def jsNumAtMostOne : JSNum → Bool
  | .fin q => q ≤ 1
  | .posInf => false
  | .negInf => true
  | .nan => true

/-- A loaded font, restricted to what the layout uses: `unitsPerEm` and
each glyph's `advanceWidth` (`font.charToGlyph(ch).advanceWidth`). -/
structure Font where
  unitsPerEm : ℚ
  advanceWidth : Char → ℚ

/-- The fixed inter-character gap of the straight layout (`const gap = 3`). -/
def gap : ℚ := 3

/-- A sample font handle for concrete evaluations: 1000 units per em, every
glyph 500 units wide. -/
def constFont : Font := ⟨1000, fun _ => 500⟩

/-- The straight-mode layout of generate() (src/CaptchaGenerator.js,
`!this.options.messy` branch), one emitted path per glyph. -/
structure StraightLayout where
  totalWidth : ℚ
  scale : JSNum
  paths : List Char
deriving DecidableEq, Repr

/-- Straight mode: a single font (the first loaded one), summed scaled
advance widths via `reduce`, `totalWidth = naturalWidth + gap * (text.length - 1)`,
`scale = Math.min(1, (width - 10) / totalWidth)`, and one path per glyph. -/
def straightLayout (width fontSize : ℚ) (font : Font) (text : List Char) : StraightLayout :=
  let naturalWidth :=
    (text.map (fun ch => font.advanceWidth ch * (fontSize / font.unitsPerEm))).foldl (· + ·) 0
  let totalWidth := naturalWidth + gap * ((text.length : ℚ) - 1)
  { totalWidth := totalWidth
    scale := jsMin1 (jsDivQ (width - 10) totalWidth)
    paths := text }

/-- The messy-mode layout of generate() (the default branch), one emitted
path per character. -/
structure MessyLayout where
  totalWidth : ℚ
  scale : JSNum
  paths : List Char
deriving DecidableEq, Repr

/-- Messy mode: per-character random font choice in the measurement pass
(`measureFont i` is the font `loadedFonts[randomInt(0, loadedFonts.length)]`
drawn for character i), summed scaled advance widths,
`scale = Math.min(1, width / totalWidth)`, and one path per character
(the emission pass re-samples fonts independently; the emitted paths'
geometry is outside the claims). -/
def messyLayout (width fontSize : ℚ) (measureFont : ℕ → Font) (text : List Char) : MessyLayout :=
  let glyphWidths := (List.range text.length).map (fun i =>
    match text.get? i with
    | some ch => (measureFont i).advanceWidth ch * (fontSize / (measureFont i).unitsPerEm)
    | none => 0)
  let totalWidth := glyphWidths.foldl (· + ·) 0
  { totalWidth := totalWidth
    scale := jsMin1 (jsDivQ width totalWidth)
    paths := text }

/-- One quadratic segment `Q midX midY, endX endY` of a noise line. -/
structure NoiseSeg where
  midX : ℚ
  midY : ℤ
  endX : ℚ
  endY : ℤ
deriving DecidableEq, Repr

/-- One noise `<path>` element of generateWavyNoise: the moveto height,
the segment count, the quadratic segments, and the rendered attributes. -/
structure NoiseLine where
  startY : ℤ
  segments : ℕ
  segs : List NoiseSeg
  stroke : String
  fill : String
  strokeWidth : ℚ
deriving DecidableEq, Repr

/-- The inner segment loop of generateWavyNoise: `n` remaining iterations,
`s` the current index, `prevX` the accumulator; each iteration sets
`midX = prevX + width / segments`, `endX = midX + width / segments`,
draws random heights `rMid s` / `rEnd s`, and continues from `endX`. -/
def noiseSegsGo (width height : ℚ) (segments : ℕ) (rMid rEnd : ℕ → ℚ) :
    ℕ → ℕ → ℚ → List NoiseSeg
  | 0, _, _ => []
  | n + 1, s, prevX =>
    let midX := prevX + width / (segments : ℚ)
    let midY := randomInt (rMid s) 0 height
    let endX := midX + width / (segments : ℚ)
    let endY := randomInt (rEnd s) 0 height
    ⟨midX, midY, endX, endY⟩ :: noiseSegsGo width height segments rMid rEnd n (s + 1) endX

/-- One iteration of generateWavyNoise's outer loop (src/CaptchaGenerator.js):
`startY = randomInt(0, height)`, `segments = randomInt(2, 4)`, the segment
loop from `prevX = 0`, stroked with `options.noiseColour` and
`stroke-width = this.defaults.noiseWidth`, `fill="none"`. -/
def noiseLine (opts : Options) (rY rSeg : ℚ) (rMid rEnd : ℕ → ℚ) : NoiseLine :=
  let startY := randomInt rY 0 opts.height
  let segments := (randomInt rSeg 2 4).toNat
  { startY := startY
    segments := segments
    segs := noiseSegsGo opts.width opts.height segments rMid rEnd segments 0 0
    stroke := opts.noiseColour
    fill := "none"
    strokeWidth := defaultsNoiseWidth }

/-- generateWavyNoise(count): `count` independent noise lines. -/
def generateWavyNoise (opts : Options) (count : ℕ)
    (rY rSeg : ℕ → ℚ) (rMid rEnd : ℕ → ℕ → ℚ) : List NoiseLine :=
  (List.range count).map (fun i => noiseLine opts (rY i) (rSeg i) (rMid i) (rEnd i))

section Lemmas

/-- Folding string append accumulates the character data. -/
theorem data_foldl_append (l : List String) (a : String) :
    (l.foldl (fun r s => r ++ s) a).data = a.data ++ (l.map String.data).flatten := by
  induction l generalizing a with
  | nil => simp
  | cons x xs ih => simp [List.foldl_cons, ih]

/-- The character data of a joined list of strings. -/
theorem data_join (l : List String) : (String.join l).data = (l.map String.data).flatten := by
  simpa [String.join] using data_foldl_append l ""

/-- With a uniform draw in [0,1) and a nonempty range, randomInt lands in
[0, n). -/
theorem randomInt_range (r : ℚ) (n : ℕ) (h0 : 0 ≤ r) (h1 : r < 1) (hn : 0 < n) :
    0 ≤ randomInt r 0 (n : ℚ) ∧ randomInt r 0 (n : ℚ) < (n : ℤ) := by
  unfold randomInt
  constructor
  · refine Int.le_floor.mpr ?_
    have h : (0:ℚ) ≤ r * (n : ℚ) := mul_nonneg h0 (by exact_mod_cast Nat.zero_le n)
    push_cast
    linarith
  · apply Int.floor_lt.mpr
    push_cast
    calc r * ((n : ℚ) - 0) + 0 = r * n := by ring
    _ < 1 * n := by
        apply mul_lt_mul_of_pos_right h1
        exact_mod_cast hn
    _ = n := one_mul _

/-- Flattening a list of one-element lists is mapping. -/
theorem flatten_map_single {α β : Type} (f : α → β) :
    ∀ l : List α, (l.map (fun a => [f a])).flatten = l.map f := by
  intro l
  induction l with
  | nil => rfl
  | cons x xs ih => simp [ih]

/-- With a nonempty pool and in-range draws, every answer-text pick is a
pool character rendered as a one-character string. -/
theorem pick_is_singleton (chars : List Char) (r : ℚ)
    (h0 : 0 ≤ r) (h1 : r < 1) (hne : chars ≠ []) :
    ∃ c ∈ chars,
      optCharStr (jsIndex chars (randomInt r 0 (chars.length : ℚ))) = String.singleton c := by
  have hn : 0 < chars.length := List.length_pos.mpr hne
  obtain ⟨hge, hlt⟩ := randomInt_range r chars.length h0 h1 hn
  have hlt2 : (randomInt r 0 ((chars.length : ℕ) : ℚ)).toNat < chars.length := by omega
  refine ⟨chars.get ⟨_, hlt2⟩, List.get_mem chars _ hlt2, ?_⟩
  unfold jsIndex
  rw [if_pos hge, List.get?_eq_get hlt2]
  rfl

/-- generateText with a nonempty pool and in-range draws: the result has
exactly `size` characters and every one of them comes from the pool. -/
theorem generateText_spec (chars : List Char) (size : ℕ) (rt : ℕ → ℚ)
    (hr : ∀ i, 0 ≤ rt i ∧ rt i < 1) (hne : chars ≠ []) :
    (generateText chars size rt).length = size ∧
    ∀ c ∈ (generateText chars size rt).data, c ∈ chars := by
  have hpiece := fun i => pick_is_singleton chars (rt i) (hr i).1 (hr i).2 hne
  choose pick hmem hstr using hpiece
  have hdata : (generateText chars size rt).data = (List.range size).map pick := by
    unfold generateText
    rw [data_join]
    have hmap : (List.range size).map (fun i =>
        optCharStr (jsIndex chars (randomInt (rt i) 0 (chars.length : ℚ))))
        = (List.range size).map (fun i => String.singleton (pick i)) :=
      List.map_congr_left (fun i _ => hstr i)
    rw [hmap]
    have hsd : ∀ c : Char, (String.singleton c).data = [c] := fun _ => rfl
    rw [List.map_map]
    have : (String.data ∘ fun i => String.singleton (pick i)) = fun i => [pick i] := by
      funext i
      simp [Function.comp, hsd]
    rw [this, flatten_map_single pick (List.range size)]
  constructor
  · have : (generateText chars size rt).length = (generateText chars size rt).data.length := rfl
    rw [this, hdata]
    simp
  · intro c hc
    rw [hdata] at hc
    obtain ⟨i, _, hi⟩ := List.mem_map.mp hc
    exact hi ▸ hmem i

/-- Membership in the constructor's character pool implies membership in
the preset expansion and exclusion from ignoreChars. -/
theorem mem_activeChars (c : Char) (presetType ignoreChars : String)
    (h : c ∈ activeChars presetType ignoreChars) :
    c ∈ (buildCharPreset presetType).data ∧ c ∉ ignoreChars.data := by
  unfold activeChars at h
  obtain ⟨h1, h2⟩ := List.mem_filter.mp h
  refine ⟨h1, ?_⟩
  simp only [Bool.not_eq_eq_eq_not, Bool.not_true] at h2
  simpa using h2

/-- generateText over an empty pool: every pick is `undefined` and joins as
the empty string, so the whole answer is empty. -/
theorem generateText_empty_pool (size : ℕ) (rt : ℕ → ℚ) :
    generateText [] size rt = "" := by
  have hdata : (generateText [] size rt).data = [] := by
    unfold generateText
    rw [data_join]
    have hmap : (List.range size).map (fun i =>
        optCharStr (jsIndex ([] : List Char) (randomInt (rt i) 0 (([] : List Char).length : ℚ))))
        = (List.range size).map (fun _ => "") := by
      refine List.map_congr_left (fun i _ => ?_)
      unfold jsIndex
      split <;> simp [optCharStr]
    rw [hmap]
    simp
  have hmk : generateText [] size rt = String.mk (generateText [] size rt).data := rfl
  rw [hmk, hdata]

/-- Appending a nonempty string on the right keeps a string nonempty. -/
theorem append_ne_empty_right (a b : String) (hb : b ≠ "") : a ++ b ≠ "" := by
  intro h
  apply hb
  have hd : (a ++ b).data = [] := congrArg String.data h
  rw [String.data_append] at hd
  have hb2 : b.data = [] := (List.append_eq_nil.mp hd).2
  have hbm : b = String.mk b.data := rfl
  rw [hbm, hb2]

/-- storeCaptcha succeeds on a truthy key/answer pair and hands setFn the
namespaced key, the answer, and the ttl. -/
theorem storeCaptcha_ok (k t : String) (ttl : ℤ) (hk : k ≠ "") (ht : t ≠ "") :
    storeCaptcha ⟨some k, some t⟩ true ttl = .ok ("captcha:" ++ k, t, ttl) := by
  unfold storeCaptcha
  rw [if_neg (by simp)]
  have hcond : (jsFalsyOptStr (some k) || jsFalsyOptStr (some t)) = false := by
    simp [jsFalsyOptStr, hk, ht]
  simp only [hcond]
  rfl

/-- Math.min(1, a / b) never exceeds 1, whatever JavaScript division of the
finite operands produced. -/
theorem jsMin1_le_one (a b : ℚ) : jsNumAtMostOne (jsMin1 (jsDivQ a b)) = true := by
  unfold jsDivQ
  split
  · split
    · decide
    · split
      · decide
      · decide
  · simp only [jsMin1, jsNumAtMostOne]
    exact decide_eq_true (min_le_left 1 (a / b))

/-- The segment loop of generateWavyNoise produces one segment per
iteration, with the i-th segment's control point at
`prevX + (2i+1) * (width / segments)` and its endpoint at
`prevX + (2i+2) * (width / segments)`. -/
theorem noiseSegsGo_get (w h : ℚ) (segN : ℕ) (rMid rEnd : ℕ → ℚ) :
    ∀ (n s : ℕ) (prevX : ℚ),
      (noiseSegsGo w h segN rMid rEnd n s prevX).length = n ∧
      ∀ i (hi : i < (noiseSegsGo w h segN rMid rEnd n s prevX).length),
        ((noiseSegsGo w h segN rMid rEnd n s prevX).get ⟨i, hi⟩).midX
            = prevX + (2 * (i : ℚ) + 1) * (w / (segN : ℚ)) ∧
        ((noiseSegsGo w h segN rMid rEnd n s prevX).get ⟨i, hi⟩).endX
            = prevX + (2 * (i : ℚ) + 2) * (w / (segN : ℚ)) := by
  intro n
  induction n with
  | zero =>
    intro s prevX
    refine ⟨rfl, ?_⟩
    intro i hi
    simp [noiseSegsGo] at hi
  | succ m ih =>
    intro s prevX
    constructor
    · simp [noiseSegsGo, (ih (s + 1) (prevX + w / (segN : ℚ) + w / (segN : ℚ))).1]
    · intro i hi
      cases i with
      | zero =>
        constructor
        · show prevX + w / (segN : ℚ) = _
          push_cast
          ring
        · show prevX + w / (segN : ℚ) + w / (segN : ℚ) = _
          push_cast
          ring
      | succ j =>
        have hlen := (ih (s + 1) (prevX + w / (segN : ℚ) + w / (segN : ℚ))).1
        have hj : j < (noiseSegsGo w h segN rMid rEnd m (s + 1)
            (prevX + w / (segN : ℚ) + w / (segN : ℚ))).length := by
          have hdef : (noiseSegsGo w h segN rMid rEnd (m + 1) s prevX).length
              = (noiseSegsGo w h segN rMid rEnd m (s + 1)
                  (prevX + w / (segN : ℚ) + w / (segN : ℚ))).length + 1 := by
            simp [noiseSegsGo]
          omega
        have hrec := (ih (s + 1) (prevX + w / (segN : ℚ) + w / (segN : ℚ))).2 j hj
        constructor
        · show ((noiseSegsGo w h segN rMid rEnd m (s + 1)
              (prevX + w / (segN : ℚ) + w / (segN : ℚ))).get ⟨j, hj⟩).midX = _
          rw [hrec.1]
          push_cast
          ring
        · show ((noiseSegsGo w h segN rMid rEnd m (s + 1)
              (prevX + w / (segN : ℚ) + w / (segN : ℚ))).get ⟨j, hj⟩).endX = _
          rw [hrec.2]
          push_cast
          ring

/-- The segment loop's last endpoint sits `2 n (width / segments)` to the
right of where it started. -/
theorem noiseSegsGo_getLast (w h : ℚ) (segN : ℕ) (rMid rEnd : ℕ → ℚ) :
    ∀ (n s : ℕ) (prevX : ℚ), 0 < n →
      ((noiseSegsGo w h segN rMid rEnd n s prevX).getLast?).map NoiseSeg.endX
        = some (prevX + (2 * (n : ℚ)) * (w / (segN : ℚ))) := by
  intro n
  induction n with
  | zero => intro s prevX hpos; omega
  | succ m ih =>
    intro s prevX _
    cases m with
    | zero =>
      show some (prevX + w / (segN : ℚ) + w / (segN : ℚ)) = _
      push_cast
      ring_nf
    | succ k =>
      have hih := ih (s + 1) (prevX + w / (segN : ℚ) + w / (segN : ℚ)) (Nat.succ_pos k)
      have hcons : noiseSegsGo w h segN rMid rEnd (k + 1 + 1) s prevX
          = ⟨prevX + w / (segN : ℚ), randomInt (rMid s) 0 h,
             prevX + w / (segN : ℚ) + w / (segN : ℚ), randomInt (rEnd s) 0 h⟩
            :: noiseSegsGo w h segN rMid rEnd (k + 1) (s + 1)
                 (prevX + w / (segN : ℚ) + w / (segN : ℚ)) := rfl
    -- the tail is itself a cons, so getLast? skips the head
      rw [hcons]
      have hcons2 : noiseSegsGo w h segN rMid rEnd (k + 1) (s + 1)
            (prevX + w / (segN : ℚ) + w / (segN : ℚ))
          = ⟨prevX + w / (segN : ℚ) + w / (segN : ℚ) + w / (segN : ℚ),
              randomInt (rMid (s + 1)) 0 h,
              prevX + w / (segN : ℚ) + w / (segN : ℚ) + w / (segN : ℚ) + w / (segN : ℚ),
              randomInt (rEnd (s + 1)) 0 h⟩
            :: noiseSegsGo w h segN rMid rEnd k (s + 1 + 1)
                 (prevX + w / (segN : ℚ) + w / (segN : ℚ) + w / (segN : ℚ) + w / (segN : ℚ)) := rfl
      rw [hcons2, List.getLast?_cons_cons, ← hcons2, hih]
      congr 1
      push_cast
      ring

end Lemmas

section Claims

/-- C1: for every configuration whose active alphabet (preset expansion minus
ignoreChars) is non-empty, the answer text drawn by generate() has exactly
`size` characters, every one of them a member of the active alphabet and
hence never a character of ignoreChars. -/
theorem generate_answerText_length_and_alphabet
    (presetType ignoreChars : String) (size : ℕ) (rt : ℕ → ℚ)
    (hr : ∀ i, 0 ≤ rt i ∧ rt i < 1)
    (hne : activeChars presetType ignoreChars ≠ []) :
    (generateText (activeChars presetType ignoreChars) size rt).length = size ∧
    ∀ c ∈ (generateText (activeChars presetType ignoreChars) size rt).data,
      c ∈ activeChars presetType ignoreChars ∧ c ∉ ignoreChars.data := by
  obtain ⟨hlen, hmem⟩ := generateText_spec _ size rt hr hne
  exact ⟨hlen, fun c hc => ⟨hmem c hc, (mem_activeChars c _ _ (hmem c hc)).2⟩⟩

/-- Witness for C1 at the "numbers" preset, no ignored characters, size 6
and the constant draw 1/2. -/
theorem generate_answerText_length_and_alphabet_witness :
    (generateText (activeChars "numbers" "") 6 (fun _ => 1/2)).length = 6 :=
  (generate_answerText_length_and_alphabet "numbers" "" 6 (fun _ => 1/2)
    (fun _ => ⟨by norm_num, by norm_num⟩) (by decide)).1

/-- C2: verifyCaptcha's result is the raw JavaScript value
`storedValue && storedValue === userInput`: `null` — not the boolean
false — for an absent entry, and the falsy empty string — not true — when
the stored value is the empty string equal to the input; booleans appear
only for a truthy stored value, and only a non-callable getFn raises. -/
theorem verifyCaptcha_nonboolean_result :
    verifyCaptcha true (fun _ => none) "x" "KEY" = .ok JSVal.nul ∧
    (∀ b : Bool, JSVal.nul ≠ JSVal.bool b) ∧
    verifyCaptcha true (fun _ => some "") "" "KEY" = .ok (JSVal.str "") ∧
    JSVal.str "" ≠ JSVal.bool true ∧
    verifyCaptcha true (fun _ => some "AB12") "AB12" "KEY" = .ok (JSVal.bool true) ∧
    verifyCaptcha true (fun _ => some "AB12") "ab12" "KEY" = .ok (JSVal.bool false) ∧
    verifyCaptcha false (fun _ => none) "x" "KEY" = .error "getFn must be a function" :=
  ⟨rfl, fun _ h => JSVal.noConfusion h, rfl, fun h => JSVal.noConfusion h, rfl, rfl, rfl⟩

/-- C3 counterexample: with every preset character ignored the active
alphabet is empty, yet generation raises nothing: the answer-text draw
proceeds and returns the empty string. -/
theorem emptyAlphabet_generate_proceeds_cex :
    activeChars "all"
        "ABCDEFGHIJKLMNOPQRSTUVWXYZabcdefghijklmnopqrstuvwxyz0123456789" = [] ∧
    generateText (activeChars "all"
        "ABCDEFGHIJKLMNOPQRSTUVWXYZabcdefghijklmnopqrstuvwxyz0123456789") 6
      (fun _ => 1/2) = "" := by
  have hch : activeChars "all"
      "ABCDEFGHIJKLMNOPQRSTUVWXYZabcdefghijklmnopqrstuvwxyz0123456789" = [] := by decide
  exact ⟨hch, by rw [hch]; exact generateText_empty_pool 6 _⟩

/-- C3 (amended): when the active alphabet is empty no ConfigurationError
exists anywhere in the flow; every pick `chars[randomInt(0, 0)]` is
`undefined`, `join("")` renders each as the empty string, and generate()
proceeds with an empty answer text. -/
theorem emptyAlphabet_generateText_empty
    (presetType ignoreChars : String) (size : ℕ) (rt : ℕ → ℚ)
    (h : activeChars presetType ignoreChars = []) :
    generateText (activeChars presetType ignoreChars) size rt = "" := by
  rw [h]
  exact generateText_empty_pool size rt

/-- Witness for the amended C3 at the "numbers" preset with all digits
ignored. -/
theorem emptyAlphabet_generateText_empty_witness :
    generateText (activeChars "numbers" "0123456789") 6 (fun _ => 1/2) = "" :=
  emptyAlphabet_generateText_empty "numbers" "0123456789" 6 (fun _ => 1/2) (by decide)

/-- C4 counterexample: with the default 150-unit canvas and a draw selecting
2 segments, the finished noise path's final x-coordinate is 300 — twice the
canvas width — so the path neither ends at the canvas width nor stays within
the canvas's horizontal span. -/
theorem noise_path_end_cex :
    ((noiseLine (mkOptions {} "c1" "c2") 0 0 (fun _ => 0) (fun _ => 0)).segs.getLast?).map
        NoiseSeg.endX = some 300 ∧
    (mkOptions {} "c1" "c2").width = 150 ∧
    ¬ ((300 : ℚ) ≤ 150) := by
  have h1 : randomInt (0 : ℚ) 2 4 = 2 := by norm_num [randomInt]
  refine ⟨?_, rfl, by norm_num⟩
  have h2 : (noiseLine (mkOptions {} "c1" "c2") 0 0 (fun _ => 0) (fun _ => 0)).segs
      = noiseSegsGo 150 50 (randomInt (0 : ℚ) 2 4).toNat (fun _ => 0) (fun _ => 0)
          (randomInt (0 : ℚ) 2 4).toNat 0 0 := rfl
  rw [h2, h1]
  show ((noiseSegsGo 150 50 2 (fun _ => 0) (fun _ => 0) 2 0 0).getLast?).map
      NoiseSeg.endX = some 300
  simp only [noiseSegsGo]
  norm_num

/-- C4 (amended): each noise line draws randomInt(2, 4) ∈ {2, 3} segments
and builds its path from x = 0; every iteration advances the running
x-coordinate by two horizontal steps of width / segments (control point one
step out, endpoint two steps out), so the finished path ends at
x = 2 · canvasWidth, overshooting the canvas's right edge. -/
theorem noiseLine_geometry (opts : Options) (rY rSeg : ℚ) (rMid rEnd : ℕ → ℚ)
    (h0 : 0 ≤ rSeg) (h1 : rSeg < 1) :
    ((noiseLine opts rY rSeg rMid rEnd).segments = 2 ∨
      (noiseLine opts rY rSeg rMid rEnd).segments = 3) ∧
    (noiseLine opts rY rSeg rMid rEnd).segs.length
        = (noiseLine opts rY rSeg rMid rEnd).segments ∧
    (∀ i (hi : i < (noiseLine opts rY rSeg rMid rEnd).segs.length),
      ((noiseLine opts rY rSeg rMid rEnd).segs.get ⟨i, hi⟩).midX
          = (2 * (i : ℚ) + 1)
              * (opts.width / ((noiseLine opts rY rSeg rMid rEnd).segments : ℚ)) ∧
      ((noiseLine opts rY rSeg rMid rEnd).segs.get ⟨i, hi⟩).endX
          = (2 * (i : ℚ) + 2)
              * (opts.width / ((noiseLine opts rY rSeg rMid rEnd).segments : ℚ))) ∧
    ((noiseLine opts rY rSeg rMid rEnd).segs.getLast?).map NoiseSeg.endX
        = some (2 * opts.width) := by
  have hseg : randomInt rSeg 2 4 = 2 ∨ randomInt rSeg 2 4 = 3 := by
    unfold randomInt
    have hge : (2 : ℤ) ≤ ⌊rSeg * ((4 : ℚ) - 2) + 2⌋ :=
      Int.le_floor.mpr (by push_cast; nlinarith)
    have hlt : ⌊rSeg * ((4 : ℚ) - 2) + 2⌋ < 4 :=
      Int.floor_lt.mpr (by push_cast; nlinarith)
    omega
  have hsegments : (noiseLine opts rY rSeg rMid rEnd).segments
      = (randomInt rSeg 2 4).toNat := rfl
  have h23 : (noiseLine opts rY rSeg rMid rEnd).segments = 2 ∨
      (noiseLine opts rY rSeg rMid rEnd).segments = 3 := by
    rw [hsegments]
    rcases hseg with h | h <;> [left; right] <;> rw [h] <;> rfl
  have hsegs : (noiseLine opts rY rSeg rMid rEnd).segs
      = noiseSegsGo opts.width opts.height (noiseLine opts rY rSeg rMid rEnd).segments
          rMid rEnd (noiseLine opts rY rSeg rMid rEnd).segments 0 0 := rfl
  have hgo := noiseSegsGo_get opts.width opts.height
      (noiseLine opts rY rSeg rMid rEnd).segments rMid rEnd
      (noiseLine opts rY rSeg rMid rEnd).segments 0 0
  have hnz : ((noiseLine opts rY rSeg rMid rEnd).segments : ℚ) ≠ 0 := by
    rcases h23 with h | h <;> rw [h] <;> norm_num
  refine ⟨h23, ?_, ?_, ?_⟩
  · rw [hsegs]
    exact hgo.1
  · intro i hi
    have hgi := hgo.2 i hi
    exact ⟨by simpa using hgi.1, by simpa using hgi.2⟩
  · have hpos : 0 < (noiseLine opts rY rSeg rMid rEnd).segments := by
      rcases h23 with h | h <;> rw [h] <;> norm_num
    have hlast := noiseSegsGo_getLast opts.width opts.height
        (noiseLine opts rY rSeg rMid rEnd).segments rMid rEnd
        (noiseLine opts rY rSeg rMid rEnd).segments 0 0 hpos
    rw [hsegs, hlast]
    congr 1
    field_simp
    ring

/-- Witness for the amended C4 at the default options and the zero draws. -/
theorem noiseLine_geometry_witness :
    ((noiseLine (mkOptions {} "c1" "c2") 0 0 (fun _ => 0) (fun _ => 0)).segs.getLast?).map
        NoiseSeg.endX = some (2 * (mkOptions {} "c1" "c2").width) :=
  (noiseLine_geometry (mkOptions {} "c1" "c2") 0 0 (fun _ => 0) (fun _ => 0)
    (le_refl 0) (by norm_num)).2.2.2

/-- C5: in both layout modes the scale is Math.min(1, ·) of the fit ratio
(straight: (width − 10) / totalWidth with the gap term; messy:
width / totalWidth), so it never exceeds 1 — text is shrunk, never
upscaled. -/
theorem layout_scale_never_exceeds_one (width fontSize : ℚ) (font : Font)
    (measureFont : ℕ → Font) (text : List Char) :
    (straightLayout width fontSize font text).scale
        = jsMin1 (jsDivQ (width - 10) (straightLayout width fontSize font text).totalWidth) ∧
    (messyLayout width fontSize measureFont text).scale
        = jsMin1 (jsDivQ width (messyLayout width fontSize measureFont text).totalWidth) ∧
    jsNumAtMostOne (straightLayout width fontSize font text).scale = true ∧
    jsNumAtMostOne (messyLayout width fontSize measureFont text).scale = true :=
  ⟨rfl, rfl, jsMin1_le_one _ _, jsMin1_le_one _ _⟩

/-- C6: generate() overwrites the instance's captchaKey/captchaText,
storeCaptcha consumes exactly that pair (namespaced key, last answer, ttl),
and once the stored pair is visible to the fetch collaborator,
verifyCaptcha's boolean compares the user input against the last answer. -/
theorem lifecycle_key_answer
    (st : GenState) (presetType ignoreChars : String) (size : ℕ)
    (rt rk : ℕ → ℚ) (now36 : String) (ttl : ℤ)
    (key text : String) (st' : GenState)
    (hgen : generateStep st (activeChars presetType ignoreChars) size rt rk now36
        = (key, text, st'))
    (hr : ∀ i, 0 ≤ rt i ∧ rt i < 1)
    (hne : activeChars presetType ignoreChars ≠ [])
    (hsize : 0 < size)
    (hnow : now36 ≠ "") :
    st' = ⟨some key, some text⟩ ∧
    storeCaptcha st' true ttl = .ok ("captcha:" ++ key, text, ttl) ∧
    ∀ fetch : String → Option String,
      fetch ("captcha:" ++ key) = some text →
      ∀ input, verifyCaptcha true fetch input key = .ok (JSVal.bool (text = input)) := by
  have h := hgen
  unfold generateStep at h
  simp only [Prod.mk.injEq] at h
  obtain ⟨h1, h2, h3⟩ := h
  rw [h1, h2] at h3
  replace h3 : st' = ⟨some key, some text⟩ := h3.symm
  have htext : text ≠ "" := by
    intro habs
    have hlen := (generateText_spec _ size rt hr hne).1
    rw [h2, habs] at hlen
    simp [String.length] at hlen
    omega
  have hkey : key ≠ "" := by
    rw [← h1]
    unfold generateKey
    exact append_ne_empty_right _ _ hnow
  refine ⟨h3, ?_, ?_⟩
  · rw [h3]
    exact storeCaptcha_ok key text ttl hkey htext
  · intro fetch hfetch input
    unfold verifyCaptcha
    rw [if_neg (by simp), hfetch]
    show Except.ok (if text = "" then JSVal.str "" else JSVal.bool (text = input)) = _
    rw [if_neg htext]

/-- Witness for C6: a concrete run with the "upper" preset, size 2 and zero
draws; storing the state generate() left behind succeeds with the
namespaced key and the generated answer. -/
theorem lifecycle_key_answer_witness :
    storeCaptcha (generateStep initState (activeChars "upper" "") 2
        (fun _ => 0) (fun _ => 0) "t0").2.2 true 60
      = .ok ("captcha:" ++ (generateStep initState (activeChars "upper" "") 2
              (fun _ => 0) (fun _ => 0) "t0").1,
            (generateStep initState (activeChars "upper" "") 2
              (fun _ => 0) (fun _ => 0) "t0").2.1, 60) :=
  (lifecycle_key_answer initState "upper" "" 2 (fun _ => 0) (fun _ => 0) "t0" 60
    _ _ _ rfl (fun _ => ⟨le_refl 0, by norm_num⟩) (by decide) (by norm_num)
    (by decide)).2.1

/-- C7: the noise renderer reads `this.defaults.noiseWidth`, not the merged
`options.noiseWidth`: with the caller setting noiseWidth to 5, the merged
option is 5, yet every emitted noise path carries stroke-width 2 (colour
and the absent fill are honoured). -/
theorem noise_strokeWidth_ignores_option :
    (mkOptions { noiseWidth := some 5, noiseColour := some "red" } "c1" "c2").noiseWidth = 5 ∧
    ((generateWavyNoise (mkOptions { noiseWidth := some 5, noiseColour := some "red" } "c1" "c2")
        2 (fun _ => 0) (fun _ => 0) (fun _ _ => 0) (fun _ _ => 0)).map
      (fun L => (L.strokeWidth, L.stroke, L.fill)))
        = [(2, "red", "none"), (2, "red", "none")] ∧
    (5 : ℚ) ≠ 2 :=
  ⟨rfl, rfl, by norm_num⟩

/-- C8: buildCharPreset is a pure total table lookup: each of the seven
recognized names returns its documented character set and any other name
falls back to the full alphanumeric union. -/
theorem buildCharPreset_table :
    buildCharPreset "upper" = "ABCDEFGHIJKLMNOPQRSTUVWXYZ" ∧
    buildCharPreset "lower" = "abcdefghijklmnopqrstuvwxyz" ∧
    buildCharPreset "numbers" = "0123456789" ∧
    buildCharPreset "letters" = "ABCDEFGHIJKLMNOPQRSTUVWXYZabcdefghijklmnopqrstuvwxyz" ∧
    buildCharPreset "upper-alphanum" = "ABCDEFGHIJKLMNOPQRSTUVWXYZ0123456789" ∧
    buildCharPreset "lower-alphanum" = "abcdefghijklmnopqrstuvwxyz0123456789" ∧
    buildCharPreset "all"
        = "ABCDEFGHIJKLMNOPQRSTUVWXYZabcdefghijklmnopqrstuvwxyz0123456789" ∧
    ∀ s : String,
      s ∉ (["upper", "lower", "numbers", "letters", "upper-alphanum",
            "lower-alphanum", "all"] : List String) →
      buildCharPreset s
          = "ABCDEFGHIJKLMNOPQRSTUVWXYZabcdefghijklmnopqrstuvwxyz0123456789" := by
  refine ⟨by decide, by decide, by decide, by decide, by decide, by decide, by decide, ?_⟩
  intro s hs
  simp only [List.mem_cons, List.not_mem_nil, or_false, not_or] at hs
  obtain ⟨hu, hl, hn, hle, hua, hla, ha⟩ := hs
  unfold buildCharPreset
  rw [if_neg hu, if_neg hl, if_neg hn, if_neg hle, if_neg hua, if_neg hla]
  decide

/-- Witness for C8 at an unrecognized preset name. -/
theorem buildCharPreset_table_witness :
    buildCharPreset "???"
        = "ABCDEFGHIJKLMNOPQRSTUVWXYZabcdefghijklmnopqrstuvwxyz0123456789" :=
  buildCharPreset_table.2.2.2.2.2.2.2 "???" (by decide)

/-- C9 counterexample: after a generate() call on an instance whose active
alphabet is empty, the stored answer text is the empty string, so
storeCaptcha with a callable setFn still raises "No captcha generated yet."
instead of invoking setFn. -/
theorem storeCaptcha_after_generate_cex :
    (generateStep initState (activeChars "numbers" "0123456789") 6
        (fun _ => 1/2) (fun _ => 1/2) "t0").2.2.captchaText = some "" ∧
    storeCaptcha (generateStep initState (activeChars "numbers" "0123456789") 6
        (fun _ => 1/2) (fun _ => 1/2) "t0").2.2 true 60
      = .error "No captcha generated yet." := by
  have hch : activeChars "numbers" "0123456789" = [] := by decide
  have htext : (generateStep initState (activeChars "numbers" "0123456789") 6
      (fun _ => 1/2) (fun _ => 1/2) "t0").2.2.captchaText
      = some (generateText (activeChars "numbers" "0123456789") 6 (fun _ => 1/2)) := rfl
  have hempty : (generateStep initState (activeChars "numbers" "0123456789") 6
      (fun _ => 1/2) (fun _ => 1/2) "t0").2.2.captchaText = some "" := by
    rw [htext, hch, generateText_empty_pool]
  refine ⟨hempty, ?_⟩
  unfold storeCaptcha
  rw [if_neg (by simp), if_pos (by rw [hempty]; simp [jsFalsyOptStr])]

/-- C9 (amended): storeCaptcha raises for a non-callable setFn; it raises
"No captcha generated yet." whenever the stored key or stored answer is
falsy (null or the empty string) — in particular before any generate()
call, but also after a generate() whose answer text is empty; otherwise it
invokes setFn exactly once with the "captcha:"-prefixed key, the last
answer text, and the ttl. -/
theorem storeCaptcha_conditions (st : GenState) (callable : Bool) (ttl : ℤ) :
    (callable = false → storeCaptcha st callable ttl = .error "setFn must be a function") ∧
    (callable = true →
      (jsFalsyOptStr st.captchaKey || jsFalsyOptStr st.captchaText) = true →
      storeCaptcha st callable ttl = .error "No captcha generated yet.") ∧
    (∀ k t, callable = true → st.captchaKey = some k → st.captchaText = some t →
      k ≠ "" → t ≠ "" →
      storeCaptcha st callable ttl = .ok ("captcha:" ++ k, t, ttl)) := by
  refine ⟨?_, ?_, ?_⟩
  · intro h
    unfold storeCaptcha
    rw [if_pos h]
  · intro h1 h2
    unfold storeCaptcha
    rw [if_neg (by simp [h1]), if_pos h2]
  · intro k t h1 h2 h3 h4 h5
    subst h1
    cases st
    cases h2
    cases h3
    exact storeCaptcha_ok k t ttl h4 h5

/-- Witness for the amended C9: a truthy stored pair makes storeCaptcha hand
setFn the namespaced key, the answer and the ttl. -/
theorem storeCaptcha_conditions_witness :
    storeCaptcha ⟨some "K", some "AB"⟩ true 60 = .ok ("captcha:" ++ "K", "AB", 60) :=
  (storeCaptcha_conditions ⟨some "K", some "AB"⟩ true 60).2.2 "K" "AB" rfl rfl rfl
    (by decide) (by decide)

/-- C10 counterexample: straight-mode layout of the empty answer text has
total width −3 (the gap term `3 * (0 − 1)`), not 0, and its scale is
min(1, 140 / (−3)) = −140/3, not 1. -/
theorem straight_empty_scale_cex :
    (straightLayout 150 36 constFont []).totalWidth = -3 ∧
    (straightLayout 150 36 constFont []).scale = JSNum.fin (-140 / 3) ∧
    JSNum.fin (-140 / 3) ≠ JSNum.fin 1 := by
  have htw : (straightLayout 150 36 constFont []).totalWidth = -3 := by
    show ((([] : List Char).map
        (fun ch => constFont.advanceWidth ch * ((36 : ℚ) / constFont.unitsPerEm))).foldl
          (· + ·) 0) + gap * (((([] : List Char).length : ℕ) : ℚ) - 1) = -3
    norm_num [gap]
  have hsc : (straightLayout 150 36 constFont []).scale = JSNum.fin (-140 / 3) := by
    show jsMin1 (jsDivQ ((150 : ℚ) - 10) (straightLayout 150 36 constFont []).totalWidth)
        = JSNum.fin (-140 / 3)
    rw [htw]
    unfold jsDivQ
    rw [if_neg (by norm_num)]
    simp only [jsMin1]
    rw [min_eq_right (by norm_num : ((150 : ℚ) - 10) / (-3) ≤ 1)]
    norm_num
  refine ⟨htw, hsc, ?_⟩
  intro h
  injection h with h2
  norm_num at h2

/-- C10 (amended): an empty answer text emits no glyph paths in either mode.
In messy mode the total width is 0 and JavaScript's division by zero gives
+Infinity, so Math.min clamps the scale to 1.  In straight mode the gap term
makes the total width −3 and, for a canvas wider than 10 units, the scale is
the negative value (width − 10) / (−3); there is no explicit
division-by-zero guard and no scale-1 convention in that mode. -/
theorem empty_text_layout (width fontSize : ℚ) (font : Font) (measureFont : ℕ → Font)
    (hw : 10 < width) :
    (straightLayout width fontSize font []).paths = [] ∧
    (straightLayout width fontSize font []).totalWidth = -3 ∧
    (straightLayout width fontSize font []).scale = JSNum.fin ((width - 10) / (-3)) ∧
    (width - 10) / (-3) < 0 ∧
    (messyLayout width fontSize measureFont []).paths = [] ∧
    (messyLayout width fontSize measureFont []).totalWidth = 0 ∧
    (messyLayout width fontSize measureFont []).scale = JSNum.fin 1 := by
  have hneg : (width - 10) / (-3) < 0 := by
    apply div_neg_of_pos_of_neg <;> linarith
  have hstw : (straightLayout width fontSize font []).totalWidth = -3 := by
    show ((([] : List Char).map
        (fun ch => font.advanceWidth ch * (fontSize / font.unitsPerEm))).foldl
          (· + ·) 0) + gap * (((([] : List Char).length : ℕ) : ℚ) - 1) = -3
    norm_num [gap]
  have hssc : (straightLayout width fontSize font []).scale
      = JSNum.fin ((width - 10) / (-3)) := by
    show jsMin1 (jsDivQ (width - 10) ((straightLayout width fontSize font []).totalWidth))
        = JSNum.fin ((width - 10) / (-3))
    rw [hstw]
    unfold jsDivQ
    rw [if_neg (by norm_num)]
    simp only [jsMin1]
    rw [min_eq_right (le_of_lt (lt_of_lt_of_le hneg zero_le_one))]
  have hmtw : (messyLayout width fontSize measureFont []).totalWidth = 0 := by
    show ((((List.range ([] : List Char).length).map fun i =>
        match ([] : List Char).get? i with
        | some ch => (measureFont i).advanceWidth ch * (fontSize / (measureFont i).unitsPerEm)
        | none => 0).foldl (· + ·) 0 : ℚ)) = 0
    norm_num
  have hmsc : (messyLayout width fontSize measureFont []).scale = JSNum.fin 1 := by
    show jsMin1 (jsDivQ width ((messyLayout width fontSize measureFont []).totalWidth))
        = JSNum.fin 1
    rw [hmtw]
    unfold jsDivQ
    rw [if_pos rfl, if_pos (by linarith)]
    rfl
  exact ⟨rfl, hstw, hssc, hneg, rfl, hmtw, hmsc⟩

/-- Witness for the amended C10 at the default 150-unit canvas. -/
theorem empty_text_layout_witness :
    (straightLayout 150 36 constFont []).totalWidth = -3 ∧
    (messyLayout 150 36 (fun _ => constFont) []).scale = JSNum.fin 1 :=
  ⟨(empty_text_layout 150 36 constFont (fun _ => constFont) (by norm_num)).2.1,
   (empty_text_layout 150 36 constFont (fun _ => constFont) (by norm_num)).2.2.2.2.2.2⟩

end Claims

end Captcha
